import Mathlib

/-!
Verification of the door-postcard placement tool (coordinates.py).

The shallow embedding below translates the geometric core (Rectangle with
its overlap/overflow predicates), the placement sampler (Postcard
construction with injectable randomness), the record store
(as_string/from_string, parse_busy/write_busy over strings modelled as
lists of characters), and the verbosity clamp of main.  Python integers
are Lean Int; random.randint is modelled as a checked draw taking the
random value as an explicit argument; fallible Python code (raising
ValueError / ZeroDivisionError / IndexError) returns Except or Option.
-/

set_option maxHeartbeats 1000000

namespace DoorPostcards

/-- Orientation of a postcard (class Orientation in coordinates.py). -/
inductive Orientation where
  | UNDEFINED
  | LANDSCAPE
  | PORTRAIT
deriving DecidableEq, Repr

/-- Axis-aligned rectangle (class Rectangle in coordinates.py). -/
structure Rectangle where
  xxx : Int
  zzz : Int
  width : Int
  height : Int
deriving DecidableEq, Repr

/-- Rectangle.overlap, transcribed literally: per axis, one of the two
edges of `a` must lie strictly inside the span of `b`; overlap holds when
both axes report true. -/
def Rectangle.overlap (a b : Rectangle) : Bool :=
  let x_11 := decide (a.xxx > b.xxx)
  let x_12 := decide (a.xxx < b.xxx + b.width)
  let x_21 := decide (a.xxx + a.width > b.xxx)
  let x_22 := decide (a.xxx + a.width < b.xxx + b.width)
  let x_test := (x_11 && x_12) || (x_21 && x_22)
  let z_11 := decide (a.zzz > b.zzz)
  let z_12 := decide (a.zzz < b.zzz + b.height)
  let z_21 := decide (a.zzz + a.height > b.zzz)
  let z_22 := decide (a.zzz + a.height < b.zzz + b.height)
  let z_test := (z_11 && z_12) || (z_21 && z_22)
  x_test && z_test

/-- Rectangle.overflow: `a` sticks out of `b` on some axis. -/
def Rectangle.overflow (a b : Rectangle) : Bool :=
  let x_test := decide (a.xxx < b.xxx) || decide (a.xxx + a.width > b.xxx + b.width)
  let z_test := decide (a.zzz < b.zzz) || decide (a.zzz + a.height > b.zzz + b.height)
  x_test || z_test

/-- THE_DOOR constant: the fixed bounding region. -/
def THE_DOOR : Rectangle := ⟨0, 0, 800, 2000⟩

/-- Python true division of two ints, failing with ZeroDivisionError when
the divisor is zero; the exact quotient is modelled as a rational. -/
def pyDiv (a b : Int) : Except String ℚ :=
  if b = 0 then .error "division by zero" else .ok ((a : ℚ) / (b : ℚ))

/-- Rectangle.get_polar: (sqrt(x^2+z^2), atan(z/x)); the division z/x
raises ZeroDivisionError when x = 0.  Floats are modelled as reals. -/
noncomputable def Rectangle.get_polar (a : Rectangle) : Except String (ℝ × ℝ) :=
  match pyDiv a.zzz a.xxx with
  | .error e => .error e
  | .ok q => .ok (Real.sqrt (((a.xxx : ℝ)) ^ 2 + ((a.zzz : ℝ)) ^ 2), Real.arctan ((q : ℝ)))

/-- Postcard: a Rectangle tagged with its Orientation (class Postcard
inherits Rectangle in the source). -/
structure Postcard extends Rectangle where
  orientation : Orientation
deriving DecidableEq, Repr

/-- Postcard.WIDTH, in millimeters. -/
def Postcard.WIDTH : Int := 146

/-- Postcard.HEIGHT, in millimeters. -/
def Postcard.HEIGHT : Int := 106

/-- The width/height pair chosen by Postcard.__init__ from the requested
orientation; None and UNDEFINED both take the square fallback branch. -/
def postcardSize (o : Option Orientation) : Int × Int :=
  match o with
  | some .LANDSCAPE => (Postcard.WIDTH, Postcard.HEIGHT)
  | some .PORTRAIT => (Postcard.HEIGHT, Postcard.WIDTH)
  | _ => (Postcard.WIDTH, Postcard.WIDTH)

/-- random.randint a b with the randomness injected as the extra argument
r: raises ValueError when the range is empty (b < a), otherwise returns a
value in the inclusive interval [a, b]. -/
def randint (a b r : Int) : Except String Int :=
  if b < a then .error "empty range for randrange()" else .ok (a + r % (b - a + 1))

/-- Postcard.__init__ with the bounding rectangle made explicit (the
source reads the module-level THE_DOOR): draws both coordinates when both
are omitted, raises ValueError when exactly one is supplied, and stores a
supplied pair as-is; the stored orientation defaults to UNDEFINED. -/
def Postcard.initDoor (door : Rectangle) (xxx zzz : Option Int) (o : Option Orientation)
    (rx rz : Int) : Except String Postcard :=
  let wh := postcardSize o
  match xxx, zzz with
  | some x, some z => .ok ⟨⟨x, z, wh.1, wh.2⟩, o.getD .UNDEFINED⟩
  | none, none =>
    match randint 0 (door.width - wh.1) rx with
    | .error e => .error e
    | .ok x =>
      match randint 0 (door.height - wh.2) rz with
      | .error e => .error e
      | .ok z => .ok ⟨⟨x, z, wh.1, wh.2⟩, o.getD .UNDEFINED⟩
  | _, _ => .error "Either provide both coordinates or none, cannot work with half."

/-- Postcard.__init__ against the fixed door of the source. -/
def Postcard.init (xxx zzz : Option Int) (o : Option Orientation) (rx rz : Int) :
    Except String Postcard :=
  Postcard.initDoor THE_DOOR xxx zzz o rx rz

/-- test_new: reject a candidate that overflows the door or overlaps (in
the candidate-to-member direction only) any existing postcard. -/
def test_new (new_postcard : Postcard) (postcards : List Postcard) : Bool :=
  if new_postcard.toRectangle.overflow THE_DOOR then false
  else postcards.all (fun p => ! new_postcard.toRectangle.overlap p.toRectangle)

/-- No two members of the list overlap, the overlap predicate being asked
in both directions for every pair. -/
def noMutualOverlap : List Postcard → Bool
  | [] => true
  | p :: rest =>
    (rest.all fun q =>
      ! p.toRectangle.overlap q.toRectangle && ! q.toRectangle.overlap p.toRectangle) &&
    noMutualOverlap rest

/-- Every member fits inside the door. -/
def inBound (postcards : List Postcard) : Bool :=
  postcards.all fun p => ! p.toRectangle.overflow THE_DOOR

/-- The placed-rectangle-set invariant of the specification: no two
members overlap and no member overflows the bounding region. -/
def placementInvariant (postcards : List Postcard) : Bool :=
  noMutualOverlap postcards && inBound postcards

/-- Discriminator for the error case of Except. -/
def isError {ε α : Type} : Except ε α → Bool
  | .error _ => true
  | .ok _ => false

/-- The log_levels table of main (logging.ERROR, WARNING, INFO, DEBUG). -/
def log_levels : List Nat := [40, 30, 20, 10]

/-- The verbosity clamp of main: None becomes 0, and a count at least the
table length is replaced by the table length itself. -/
def effective_verbose (v : Option Nat) : Nat :=
  match v with
  | none => 0
  | some n => if n ≥ log_levels.length then log_levels.length else n

/-- Decimal digit character, as Python str renders one digit. -/
def digitChar : Nat → Char
  | 0 => '0'
  | 1 => '1'
  | 2 => '2'
  | 3 => '3'
  | 4 => '4'
  | 5 => '5'
  | 6 => '6'
  | 7 => '7'
  | 8 => '8'
  | _ => '9'

/-- Decimal rendering of a natural number, most significant digit first
(Python str of a non-negative int). -/
def natDigits (n : Nat) : List Char :=
  if _h : n < 10 then [digitChar n]
  else natDigits (n / 10) ++ [digitChar (n % 10)]
decreasing_by exact Nat.div_lt_self (by omega) (by omega)

/-- Accumulator pass of Python int() over decimal digits: fails on the
first character that is not a digit. -/
def parseNatAux (acc : Nat) : List Char → Option Nat
  | [] => some acc
  | c :: cs =>
    if 48 ≤ c.toNat ∧ c.toNat ≤ 57 then parseNatAux (acc * 10 + (c.toNat - 48)) cs
    else none

/-- Python int() on an unsigned decimal string: fails on the empty
string or on any non-digit character. -/
def parseNat : List Char → Option Nat
  | [] => none
  | c :: cs => parseNatAux 0 (c :: cs)

/-- Python str() of an int. -/
def intStr (i : Int) : List Char :=
  if i < 0 then '-' :: natDigits (-i).toNat else natDigits i.toNat

/-- Python int() of a possibly sign-prefixed decimal string. -/
def parseInt (l : List Char) : Option Int :=
  if l.head? = some '-' then (parseNat l.tail).map (fun n => -(n : Int))
  else (parseNat l).map (fun n => (n : Int))

/-- str.split of Python, restricted to a one-character separator. -/
def splitOnChar (sep : Char) : List Char → List (List Char)
  | [] => [[]]
  | c :: cs =>
    match splitOnChar sep cs with
    | [] => [[]]
    | r :: rs => if c = sep then [] :: r :: rs else (c :: r) :: rs

/-- str.join of Python with a one-character separator. -/
def joinSep (sep : Char) : List (List Char) → List Char
  | [] => []
  | [p] => p
  | p :: q :: rest => p ++ sep :: joinSep sep (q :: rest)

/-- str.splitlines of Python on newline-only text: every newline ends a
line, and the text after the last newline forms a final line only when
it is non-empty. -/
def pySplitlines (l : List Char) : List (List Char) :=
  let parts := splitOnChar '\n' l
  if parts.getLast? = some [] then parts.dropLast else parts

/-- Name of an orientation, as Orientation.name renders it. -/
def orientationName : Orientation → List Char
  | .UNDEFINED => "UNDEFINED".toList
  | .LANDSCAPE => "LANDSCAPE".toList
  | .PORTRAIT => "PORTRAIT".toList

/-- Lookup Orientation[name]: fails (KeyError) on an unknown name. -/
def orientationFromName (l : List Char) : Option Orientation :=
  if l = "UNDEFINED".toList then some .UNDEFINED
  else if l = "LANDSCAPE".toList then some .LANDSCAPE
  else if l = "PORTRAIT".toList then some .PORTRAIT
  else none

/-- Postcard.as_string: the x,z,orientation-name CSV line. -/
def as_string (p : Postcard) : List Char :=
  intStr p.toRectangle.xxx ++
    ',' :: (intStr p.toRectangle.zzz ++ ',' :: orientationName p.orientation)

/-- Postcard.from_string: split at commas into exactly three fields,
parse the two ints and the orientation name, and build the postcard
(both coordinates supplied, so the random arguments are irrelevant). -/
def from_string (l : List Char) : Except String Postcard :=
  match splitOnChar ',' l with
  | [sx, sz, so] =>
    match parseInt sx, parseInt sz, orientationFromName so with
    | some x, some z, some o => Postcard.init (some x) (some z) (some o) 0 0
    | _, _, _ => .error "malformed record"
  | _ => .error "not enough values to unpack"

/-- Header comment line written by write_busy. -/
def headerLine : List Char := "# x,z,orientation".toList

/-- Record-by-record pass of parse_busy over the split lines: comment
lines starting with a hash are skipped, every other line must parse. -/
def parseLines : List (List Char) → Except String (List Postcard)
  | [] => .ok []
  | line :: rest =>
    if line.head? = some '#' then parseLines rest
    else
      match from_string line with
      | .error e => .error e
      | .ok p =>
        match parseLines rest with
        | .error e => .error e
        | .ok ps => .ok (p :: ps)

/-- parse_busy: split the persisted text into lines and parse them. -/
def parse_busy (text : List Char) : Except String (List Postcard) :=
  parseLines (pySplitlines text)

/-- write_busy: the header comment line, then one CSV line per postcard,
newline-terminated. -/
def write_busy (postcards : List Postcard) : List Char :=
  headerLine ++ '\n' :: (joinSep '\n' (postcards.map as_string) ++ ['\n'])

/-- The postcard rebuilt by from_string from a record line: same origin
and orientation, the stored dimensions recomputed from the orientation
tag. -/
def canon (p : Postcard) : Postcard :=
  ⟨⟨p.toRectangle.xxx, p.toRectangle.zzz,
    (postcardSize (some p.orientation)).1, (postcardSize (some p.orientation)).2⟩,
    p.orientation⟩

/-- C1: the overlap predicate is claimed symmetric, but the strict
edge-inside-span test misses containment: the big rectangle
(0,0,100,100) does not report overlap with the contained (10,10,20,20)
while the contained one does report overlap with it. -/
theorem C1_overlap_not_symmetric :
    Rectangle.overlap ⟨0, 0, 100, 100⟩ ⟨10, 10, 20, 20⟩ = false ∧
    Rectangle.overlap ⟨10, 10, 20, 20⟩ ⟨0, 0, 100, 100⟩ = true := by
  decide

/-- C2: overlap(A,A) is claimed true for positive width and height, but
neither edge of A is strictly inside A's own span, so the code returns
false even on the positively sized square (0,0,10,10). -/
theorem C2_self_overlap_false :
    (0 : Int) < 10 ∧ Rectangle.overlap ⟨0, 0, 10, 10⟩ ⟨0, 0, 10, 10⟩ = false := by
  decide

/-- C3: appending a test_new-accepted candidate is claimed to preserve
the no-two-members-overlap / no-overflow invariant, but test_new asks
overlap only in the candidate-to-member direction: the landscape card at
(0,0) is accepted against the portrait card at (20,50) although the
portrait card reports overlap with it, so the invariant breaks. -/
theorem C3_invariant_not_preserved :
    placementInvariant [⟨⟨20, 50, 106, 146⟩, .PORTRAIT⟩] = true ∧
    test_new ⟨⟨0, 0, 146, 106⟩, .LANDSCAPE⟩ [⟨⟨20, 50, 106, 146⟩, .PORTRAIT⟩] = true ∧
    placementInvariant
      [⟨⟨20, 50, 106, 146⟩, .PORTRAIT⟩, ⟨⟨0, 0, 146, 106⟩, .LANDSCAPE⟩] = false := by
  decide

/-- C4: every rectangle the sampler produces for orientation Landscape
against the 800 by 2000 door, whatever the injected random values, has
origin within 0 ≤ x ≤ 654 and 0 ≤ z ≤ 1894, does not overflow the door,
and is accepted by test_new against the empty existing set. -/
theorem C4_sampler_in_bounds (rx rz : Int) :
    ∃ p : Postcard,
      Postcard.init none none (some .LANDSCAPE) rx rz = .ok p ∧
      0 ≤ p.toRectangle.xxx ∧ p.toRectangle.xxx ≤ 654 ∧
      0 ≤ p.toRectangle.zzz ∧ p.toRectangle.zzz ≤ 1894 ∧
      p.toRectangle.overflow THE_DOOR = false ∧
      test_new p [] = true := by
  have hx0 : 0 ≤ rx % 655 := Int.emod_nonneg rx (by decide)
  have hx1 : rx % 655 < 655 := Int.emod_lt_of_pos rx (by decide)
  have hz0 : 0 ≤ rz % 1895 := Int.emod_nonneg rz (by decide)
  have hz1 : rz % 1895 < 1895 := Int.emod_lt_of_pos rz (by decide)
  refine ⟨⟨⟨0 + rx % 655, 0 + rz % 1895, 146, 106⟩, .LANDSCAPE⟩, ?_, ?_, ?_, ?_, ?_, ?_, ?_⟩
  · rfl
  · simpa using hx0
  · simp only []
    omega
  · simpa using hz0
  · simp only []
    omega
  · simp only [Rectangle.overflow, THE_DOOR]
    simp only [decide_eq_false_iff_not, Bool.or_eq_false_iff, decide_eq_true_eq, not_lt]
    refine ⟨⟨?_, ?_⟩, ?_, ?_⟩ <;> omega
  · simp only [test_new]
    rw [if_neg]
    · rfl
    · simp only [Rectangle.overflow, THE_DOOR]
      simp only [Bool.or_eq_true, decide_eq_true_eq, not_or]
      omega

/-- C4 witness: the sampler at the concrete random values 7 and 9. -/
theorem C4_sampler_in_bounds_witness :
    ∃ p : Postcard,
      Postcard.init none none (some .LANDSCAPE) 7 9 = .ok p ∧
      0 ≤ p.toRectangle.xxx ∧ p.toRectangle.xxx ≤ 654 ∧
      0 ≤ p.toRectangle.zzz ∧ p.toRectangle.zzz ≤ 1894 ∧
      p.toRectangle.overflow THE_DOOR = false ∧
      test_new p [] = true :=
  C4_sampler_in_bounds 7 9

/-- C5: two rectangles with non-negative dimensions whose spans merely
touch at a boundary on some axis are reported non-overlapping, in both
argument orders: edge-adjacency is permitted. -/
theorem C5_edge_adjacent_no_overlap (a b : Rectangle)
    (haw : 0 ≤ a.width) (hah : 0 ≤ a.height) (hbw : 0 ≤ b.width) (hbh : 0 ≤ b.height)
    (h : a.xxx + a.width = b.xxx ∨ b.xxx + b.width = a.xxx ∨
         a.zzz + a.height = b.zzz ∨ b.zzz + b.height = a.zzz) :
    a.overlap b = false ∧ b.overlap a = false := by
  rcases h with h | h | h | h <;>
    constructor <;>
      · simp only [Rectangle.overlap, Bool.and_eq_false_iff, Bool.or_eq_false_iff,
          decide_eq_false_iff_not, not_lt]
        omega

/-- C5 witness: the two 10 by 10 squares of the specification, touching
along the vertical line x = 10, do not overlap. -/
theorem C5_edge_adjacent_no_overlap_witness :
    (0 : Int) ≤ 10 ∧
    Rectangle.overlap ⟨0, 0, 10, 10⟩ ⟨10, 0, 10, 10⟩ = false ∧
    Rectangle.overlap ⟨10, 0, 10, 10⟩ ⟨0, 0, 10, 10⟩ = false :=
  ⟨by decide,
    (C5_edge_adjacent_no_overlap ⟨0, 0, 10, 10⟩ ⟨10, 0, 10, 10⟩
      (by decide) (by decide) (by decide) (by decide) (Or.inl (by decide))).1,
    (C5_edge_adjacent_no_overlap ⟨0, 0, 10, 10⟩ ⟨10, 0, 10, 10⟩
      (by decide) (by decide) (by decide) (by decide) (Or.inl (by decide))).2⟩

/-- C6: when the requested postcard dimensions exceed the bounding
rectangle on either axis, the sampler's uniform draw has an empty range
and construction fails immediately with an error instead of producing a
rectangle. -/
theorem C6_invalid_range_fails (door : Rectangle) (o : Option Orientation) (rx rz : Int)
    (h : door.width < (postcardSize o).1 ∨ door.height < (postcardSize o).2) :
    isError (Postcard.initDoor door none none o rx rz) = true := by
  simp only [Postcard.initDoor, randint]
  rcases h with h | h
  · rw [if_pos (by omega)]
    rfl
  · by_cases hw : door.width - (postcardSize o).1 < 0
    · rw [if_pos hw]
      rfl
    · rw [if_neg hw, if_pos (by omega)]
      rfl

/-- C6 witness: a door only 100 wide cannot hold the 146-wide landscape
postcard, and the sampler errors out. -/
theorem C6_invalid_range_fails_witness :
    (Rectangle.mk 0 0 100 2000).width < (postcardSize (some .LANDSCAPE)).1 ∧
    isError (Postcard.initDoor ⟨0, 0, 100, 2000⟩ none none (some .LANDSCAPE) 0 0) = true :=
  ⟨by decide,
    C6_invalid_range_fails ⟨0, 0, 100, 2000⟩ (some .LANDSCAPE) 0 0 (Or.inl (by decide))⟩

/-- C9: get_polar returns (sqrt(x^2+z^2), atan(z/x)) whenever the origin
x is non-zero, and fails with the division-by-zero error when x = 0. -/
theorem C9_get_polar_spec (a : Rectangle) :
    (a.xxx = 0 → a.get_polar = .error "division by zero") ∧
    (a.xxx ≠ 0 → a.get_polar =
      .ok (Real.sqrt (((a.xxx : ℝ)) ^ 2 + ((a.zzz : ℝ)) ^ 2),
           Real.arctan ((a.zzz : ℝ) / (a.xxx : ℝ)))) := by
  constructor
  · intro h
    simp [Rectangle.get_polar, pyDiv, h]
  · intro h
    simp only [Rectangle.get_polar, pyDiv, if_neg h]
    have : (((a.zzz : ℚ) / (a.xxx : ℚ) : ℚ) : ℝ) = (a.zzz : ℝ) / (a.xxx : ℝ) := by
      push_cast
      ring
    rw [this]

/-- C9 witness: a rectangle sitting on the z-axis (origin x = 0) makes
get_polar fail with the division-by-zero error. -/
theorem C9_get_polar_spec_witness :
    (Rectangle.mk 0 5 1 1).xxx = 0 ∧
    (Rectangle.mk 0 5 1 1).get_polar = .error "division by zero" :=
  ⟨rfl, (C9_get_polar_spec ⟨0, 5, 1, 1⟩).1 rfl⟩

/-- C10: supplying exactly one of the two coordinates makes the
constructor raise ValueError; a fully supplied pair is stored as-is and
the random arguments are never consulted; the draw happens only when
both coordinates are omitted. -/
theorem C10_half_coordinates (x z : Int) (o : Option Orientation) (rx rz : Int) :
    Postcard.init (some x) none o rx rz =
      .error "Either provide both coordinates or none, cannot work with half." ∧
    Postcard.init none (some z) o rx rz =
      .error "Either provide both coordinates or none, cannot work with half." ∧
    Postcard.init (some x) (some z) o rx rz =
      .ok ⟨⟨x, z, (postcardSize o).1, (postcardSize o).2⟩, o.getD .UNDEFINED⟩ ∧
    Postcard.init (some x) (some z) o rx rz = Postcard.init (some x) (some z) o 0 0 := by
  refine ⟨rfl, rfl, rfl, rfl⟩

/-- C10 witness: the half-supplied constructions at x = 5, z = 6 error
out, and the fully supplied pair is stored untouched. -/
theorem C10_half_coordinates_witness :
    Postcard.init (some 5) none (some .PORTRAIT) 1 2 =
      .error "Either provide both coordinates or none, cannot work with half." ∧
    Postcard.init none (some 6) (some .PORTRAIT) 1 2 =
      .error "Either provide both coordinates or none, cannot work with half." ∧
    Postcard.init (some 5) (some 6) (some .PORTRAIT) 1 2 =
      .ok ⟨⟨5, 6, (postcardSize (some .PORTRAIT)).1, (postcardSize (some .PORTRAIT)).2⟩,
        (some Orientation.PORTRAIT).getD .UNDEFINED⟩ ∧
    Postcard.init (some 5) (some 6) (some .PORTRAIT) 1 2 =
      Postcard.init (some 5) (some 6) (some .PORTRAIT) 0 0 :=
  C10_half_coordinates 5 6 (some .PORTRAIT) 1 2

theorem parseNatAux_append (l₁ l₂ : List Char) (acc : Nat) :
    parseNatAux acc (l₁ ++ l₂) =
      (parseNatAux acc l₁).bind fun a => parseNatAux a l₂ := by
  induction l₁ generalizing acc with
  | nil => rfl
  | cons c cs ih =>
    simp only [List.cons_append, parseNatAux]
    split
    · exact ih _
    · rfl

theorem digitChar_spec (n : Nat) (h : n < 10) :
    48 ≤ (digitChar n).toNat ∧ (digitChar n).toNat ≤ 57 ∧ (digitChar n).toNat - 48 = n := by
  interval_cases n <;> exact ⟨by decide, by decide, by decide⟩

theorem natDigits_ne_nil (n : Nat) : natDigits n ≠ [] := by
  rw [natDigits]
  split
  · simp
  · simp

theorem natDigits_mem (n : Nat) :
    ∀ c ∈ natDigits n, 48 ≤ c.toNat ∧ c.toNat ≤ 57 := by
  induction n using Nat.strong_induction_on with
  | _ n ih =>
    rw [natDigits]
    split
    · next h =>
      intro c hc
      simp only [List.mem_singleton] at hc
      subst hc
      exact ⟨(digitChar_spec n h).1, (digitChar_spec n h).2.1⟩
    · next h =>
      intro c hc
      rw [List.mem_append] at hc
      rcases hc with hc | hc
      · exact ih (n / 10) (Nat.div_lt_self (by omega) (by omega)) c hc
      · simp only [List.mem_singleton] at hc
        subst hc
        have h10 : n % 10 < 10 := Nat.mod_lt _ (by omega)
        exact ⟨(digitChar_spec _ h10).1, (digitChar_spec _ h10).2.1⟩

theorem parseNatAux_natDigits (n : Nat) :
    ∀ acc, parseNatAux acc (natDigits n) = some (acc * 10 ^ (natDigits n).length + n) := by
  induction n using Nat.strong_induction_on with
  | _ n ih =>
    intro acc
    rw [natDigits]
    split
    · next h =>
      have hs := digitChar_spec n h
      simp only [parseNatAux, List.length_singleton]
      rw [if_pos ⟨hs.1, hs.2.1⟩, hs.2.2]
      simp [pow_one]
    · next h =>
      have h10 : n % 10 < 10 := Nat.mod_lt _ (by omega)
      have hs := digitChar_spec (n % 10) h10
      rw [parseNatAux_append]
      rw [ih (n / 10) (Nat.div_lt_self (by omega) (by omega)) acc]
      simp only [Option.some_bind]
      simp only [parseNatAux]
      rw [if_pos ⟨hs.1, hs.2.1⟩, hs.2.2]
      congr 1
      rw [List.length_append, List.length_singleton, pow_succ]
      calc (acc * 10 ^ (natDigits (n / 10)).length + n / 10) * 10 + n % 10
          = acc * (10 ^ (natDigits (n / 10)).length * 10) + (10 * (n / 10) + n % 10) := by
            ring
        _ = acc * (10 ^ (natDigits (n / 10)).length * 10) + n := by
            rw [Nat.div_add_mod]

theorem parseNat_natDigits (n : Nat) : parseNat (natDigits n) = some n := by
  obtain ⟨c, cs, hc⟩ := List.exists_cons_of_ne_nil (natDigits_ne_nil n)
  rw [hc]
  show parseNatAux 0 (c :: cs) = some n
  rw [← hc, parseNatAux_natDigits n 0]
  simp

theorem intStr_ne_nil (i : Int) : intStr i ≠ [] := by
  rw [intStr]
  split
  · simp
  · exact natDigits_ne_nil _

theorem intStr_mem (i : Int) :
    ∀ c ∈ intStr i, c = '-' ∨ (48 ≤ c.toNat ∧ c.toNat ≤ 57) := by
  intro c hc
  rw [intStr] at hc
  split at hc
  · rcases List.mem_cons.mp hc with hc | hc
    · exact Or.inl hc
    · exact Or.inr (natDigits_mem _ c hc)
  · exact Or.inr (natDigits_mem _ c hc)

theorem parseInt_intStr (i : Int) : parseInt (intStr i) = some i := by
  by_cases h : i < 0
  · have hne : (0 : Int) ≤ -i := by omega
    rw [intStr, if_pos h]
    simp [parseInt, parseNat_natDigits, Int.toNat_of_nonneg hne]
  · have h0 : (0 : Int) ≤ i := by omega
    rw [intStr, if_neg h]
    obtain ⟨c, cs, hc⟩ := List.exists_cons_of_ne_nil (natDigits_ne_nil i.toNat)
    have hcd : 48 ≤ c.toNat ∧ c.toNat ≤ 57 :=
      natDigits_mem i.toNat c (by rw [hc]; exact List.mem_cons_self _ _)
    have hcne : c ≠ '-' := by
      intro he
      rw [he] at hcd
      exact absurd hcd (by decide)
    rw [hc]
    simp only [parseInt, List.head?_cons]
    rw [if_neg (by simp [hcne])]
    rw [← hc, parseNat_natDigits]
    simp [Int.toNat_of_nonneg h0]

theorem nl_not_mem_intStr (i : Int) : '\n' ∉ intStr i := by
  intro hmem
  rcases intStr_mem i _ hmem with h | h
  · exact absurd h (by decide)
  · exact absurd h (by decide)

theorem comma_not_mem_intStr (i : Int) : ',' ∉ intStr i := by
  intro hmem
  rcases intStr_mem i _ hmem with h | h
  · exact absurd h (by decide)
  · exact absurd h (by decide)

theorem nl_not_mem_orientationName (o : Orientation) : '\n' ∉ orientationName o := by
  cases o <;> decide

theorem comma_not_mem_orientationName (o : Orientation) : ',' ∉ orientationName o := by
  cases o <;> decide

theorem nl_not_mem_as_string (p : Postcard) : '\n' ∉ as_string p := by
  rw [as_string]
  intro hmem
  rcases List.mem_append.mp hmem with h | h
  · exact nl_not_mem_intStr _ h
  · rcases List.mem_cons.mp h with h | h
    · exact absurd h (by decide)
    · rcases List.mem_append.mp h with h | h
      · exact nl_not_mem_intStr _ h
      · rcases List.mem_cons.mp h with h | h
        · exact absurd h (by decide)
        · exact nl_not_mem_orientationName _ h

theorem as_string_head (p : Postcard) : (as_string p).head? ≠ some '#' := by
  rw [as_string]
  obtain ⟨c, cs, hc⟩ := List.exists_cons_of_ne_nil (intStr_ne_nil p.toRectangle.xxx)
  rw [hc, List.cons_append, List.head?_cons]
  intro he
  have hce : c = '#' := by injection he
  subst hce
  rcases intStr_mem _ _ (hc ▸ List.mem_cons_self '#' cs) with h | h
  · exact absurd h (by decide)
  · exact absurd h (by decide)

theorem splitOnChar_ne_nil (sep : Char) (l : List Char) : splitOnChar sep l ≠ [] := by
  induction l with
  | nil => simp [splitOnChar]
  | cons c cs ih =>
    rw [splitOnChar]
    split
    · simp
    · split <;> simp

theorem splitOnChar_not_mem (sep : Char) (l : List Char) (h : sep ∉ l) :
    splitOnChar sep l = [l] := by
  induction l with
  | nil => rfl
  | cons c cs ih =>
    have hcs : sep ∉ cs := fun hm => h (List.mem_cons_of_mem _ hm)
    have hc : c ≠ sep := fun he => h (he ▸ List.mem_cons_self _ _)
    rw [splitOnChar, ih hcs]
    simp [hc]

theorem splitOnChar_append (sep : Char) (p rest : List Char) (h : sep ∉ p) :
    splitOnChar sep (p ++ sep :: rest) = p :: splitOnChar sep rest := by
  induction p with
  | nil =>
    rw [List.nil_append, splitOnChar]
    obtain ⟨r, rs, hr⟩ := List.exists_cons_of_ne_nil (splitOnChar_ne_nil sep rest)
    rw [hr]
    simp
  | cons c cs ih =>
    have hcs : sep ∉ cs := fun hm => h (List.mem_cons_of_mem _ hm)
    have hc : c ≠ sep := fun he => h (he ▸ List.mem_cons_self _ _)
    rw [List.cons_append, splitOnChar, ih hcs]
    simp [hc]

theorem splitOnChar_joinSep (sep : Char) (parts : List (List Char))
    (hne : parts ≠ []) (hmem : ∀ p ∈ parts, sep ∉ p) :
    splitOnChar sep (joinSep sep parts) = parts := by
  induction parts with
  | nil => exact absurd rfl hne
  | cons p rest ih =>
    cases rest with
    | nil =>
      simp only [joinSep]
      exact splitOnChar_not_mem sep p (hmem p (List.mem_cons_self _ _))
    | cons q rest' =>
      simp only [joinSep]
      rw [splitOnChar_append sep p _ (hmem p (List.mem_cons_self _ _))]
      rw [ih (by simp) (fun r hr => hmem r (List.mem_cons_of_mem _ hr))]

theorem joinSep_concat (sep : Char) (p : List Char) (rest : List (List Char)) (x : List Char) :
    joinSep sep ((p :: rest) ++ [x]) = joinSep sep (p :: rest) ++ sep :: x := by
  induction rest generalizing p with
  | nil => rfl
  | cons q rest' ih =>
    calc joinSep sep ((p :: q :: rest') ++ [x])
        = p ++ sep :: joinSep sep ((q :: rest') ++ [x]) := rfl
      _ = p ++ sep :: (joinSep sep (q :: rest') ++ sep :: x) := by rw [ih]
      _ = joinSep sep (p :: q :: rest') ++ sep :: x := by
          rw [show joinSep sep (p :: q :: rest') = p ++ sep :: joinSep sep (q :: rest') from rfl]
          simp

theorem splitOnChar_write_busy (S : List Postcard) (h : S ≠ []) :
    splitOnChar '\n' (write_busy S) = headerLine :: (S.map as_string ++ [[]]) := by
  obtain ⟨p, rest, hp⟩ := List.exists_cons_of_ne_nil h
  have hj : joinSep '\n' (S.map as_string) ++ ['\n'] =
      joinSep '\n' (S.map as_string ++ [[]]) := by
    rw [hp]
    rw [show (p :: rest).map as_string = as_string p :: rest.map as_string from rfl]
    exact (joinSep_concat '\n' (as_string p) (rest.map as_string) []).symm
  rw [write_busy, hj]
  rw [splitOnChar_append '\n' headerLine _ (by decide)]
  rw [splitOnChar_joinSep '\n' (S.map as_string ++ [[]]) (by simp) ?_]
  intro q hq
  rcases List.mem_append.mp hq with hq | hq
  · obtain ⟨r, _, hr⟩ := List.mem_map.mp hq
    exact hr ▸ nl_not_mem_as_string r
  · simp only [List.mem_singleton] at hq
    subst hq
    exact List.not_mem_nil _

theorem pySplitlines_write_busy (S : List Postcard) (h : S ≠ []) :
    pySplitlines (write_busy S) = headerLine :: S.map as_string := by
  rw [pySplitlines, splitOnChar_write_busy S h]
  rw [show headerLine :: (S.map as_string ++ [[]]) =
        (headerLine :: S.map as_string) ++ [[]] from by simp]
  rw [List.getLast?_concat]
  rw [if_pos rfl, List.dropLast_concat]

theorem orientationFromName_orientationName (o : Orientation) :
    orientationFromName (orientationName o) = some o := by
  cases o <;> decide

theorem splitOnChar_as_string (p : Postcard) :
    splitOnChar ',' (as_string p) =
      [intStr p.toRectangle.xxx, intStr p.toRectangle.zzz,
        orientationName p.orientation] := by
  rw [as_string]
  rw [splitOnChar_append ',' _ _ (comma_not_mem_intStr _)]
  rw [splitOnChar_append ',' _ _ (comma_not_mem_intStr _)]
  rw [splitOnChar_not_mem ',' _ (comma_not_mem_orientationName _)]

theorem from_string_as_string (p : Postcard) :
    from_string (as_string p) = .ok (canon p) := by
  simp only [from_string, splitOnChar_as_string, parseInt_intStr,
    orientationFromName_orientationName]
  rfl

theorem as_string_canon (p : Postcard) : as_string (canon p) = as_string p := rfl

theorem parseLines_map_as_string (S : List Postcard) :
    parseLines (S.map as_string) = .ok (S.map canon) := by
  induction S with
  | nil => rfl
  | cons p rest ih =>
    rw [List.map_cons, parseLines]
    rw [if_neg (as_string_head p)]
    rw [from_string_as_string, ih]
    rfl

theorem map_as_string_canon (S : List Postcard) :
    (S.map canon).map as_string = S.map as_string := by
  induction S with
  | nil => rfl
  | cons p rest ih => simp [as_string_canon, ih]

/-- C7: the saved text of a NON-EMPTY record sequence loads back and
saves to identical text.  (The claim as stated, over every valid record
sequence, fails for the empty sequence: see the counterexample.) -/
theorem C7_roundtrip_nonempty (S : List Postcard) (h : S ≠ []) :
    ∃ T, parse_busy (write_busy S) = .ok T ∧ write_busy T = write_busy S := by
  refine ⟨S.map canon, ?_, ?_⟩
  · rw [parse_busy, pySplitlines_write_busy S h, parseLines]
    rw [if_pos (by decide)]
    exact parseLines_map_as_string S
  · rw [write_busy, write_busy, map_as_string_canon]

/-- C7 witness: the singleton record at (3,4) in landscape orientation
round-trips through the persisted text. -/
theorem C7_roundtrip_nonempty_witness :
    ([⟨⟨3, 4, 146, 106⟩, .LANDSCAPE⟩] : List Postcard) ≠ [] ∧
    ∃ T, parse_busy (write_busy [⟨⟨3, 4, 146, 106⟩, .LANDSCAPE⟩]) = .ok T ∧
      write_busy T = write_busy [⟨⟨3, 4, 146, 106⟩, .LANDSCAPE⟩] :=
  ⟨by decide, C7_roundtrip_nonempty _ (by decide)⟩

/-- C7 counterexample: saving the EMPTY record sequence writes the
header followed by one blank line, and loading that text fails on the
blank line, so save-load-save does not round-trip at S = []. -/
theorem C7_empty_sequence_fails : isError (parse_busy (write_busy [])) = true := by
  decide

/-- C8: the clamp of main replaces a verbosity count at least the table
length by the table length itself (not the last valid index), so a count
of 4 indexes one past the 4-entry level table and the lookup fails,
where the claim says selecting the level always succeeds. -/
theorem C8_verbosity_index_out_of_range :
    effective_verbose (some 4) = log_levels.length ∧
    log_levels.get? (effective_verbose (some 4)) = none := by
  decide

end DoorPostcards
